import Mathlib

/-!
Verification of the image-API client binding in
`vendor/go/src/github.com/fsouza/go-dockerclient/image.go`.

The file under verification is a flat request-dispatch façade over a generic
transport (`Client.do` / `Client.stream`, defined outside this file).  We embed
it shallowly: the transport, the JSON codecs, the auth encoder and the
filesystem are oracle functions bundled in a `Client` record, and every
operation returns, next to its Go result, the list of transport calls it
dispatched, so that request shape and call counts are first-class.
-/

deriving instance DecidableEq for Except

namespace Docker

/-- The error values of the binding.  `errNoSuchImage`, `errMissingRepo` and
`errMissingOutputStream` are the three package-level error variables of
image.go; the remaining constructors stand for opaque errors produced by the
transport, the JSON decoder and the OS file open. -/
inductive DockerError where
  | errNoSuchImage
  | errMissingRepo
  | errMissingOutputStream
  | transportErr (msg : String)
  | jsonErr (msg : String)
  | openErr (msg : String)
deriving DecidableEq, Repr

/-- An `io.Reader` handed to the transport: either a caller-supplied reader
(opaque, identified by a tag) or a `bytes.Buffer` built inside the binding
with known contents (auth JSON, or a file read into memory). -/
inductive InStream where
  | caller (r : Nat)
  | buffer (bytes : List Nat)
deriving DecidableEq, Repr

/-- One invocation of the shared transport: `c.do(method, path, data)` or
`c.stream(method, path, in, out)`.  Writers are opaque tags. -/
inductive TransportCall where
  | doCall (method : String) (path : String) (data : Option (List Nat))
  | streamCall (method : String) (path : String)
      (inp : Option InStream) (out : Option Nat)
deriving DecidableEq, Repr

/-- Image summary record (`APIImages` struct of image.go). -/
structure APIImages where
  ID : String
  RepoTags : List String
  Created : Int
  Size : Int
  VirtualSize : Int
  ParentId : String
  Repository : String
  Tag : String
deriving DecidableEq, Repr

/-- Modelled from the spec: the image detail record is "an opaque type
populated by inspection, decoded directly from the daemon's JSON"; its Go
definition (`Image`) lives outside this file, so we keep it opaque. -/
structure Image where
  raw : List Nat
deriving DecidableEq, Repr

/-- `AuthConfiguration` struct of image.go. -/
structure AuthConfiguration where
  Username : String
  Password : String
  Email : String
deriving DecidableEq, Repr

/-- `PushImageOptions` struct of image.go.  `OutputStream` is tagged `qs:"-"`
and so never serialized. -/
structure PushImageOptions where
  Name : String
  Registry : String
  OutputStream : Option Nat
deriving DecidableEq, Repr

/-- `PullImageOptions` struct of image.go (`Repository` carries `qs:"fromImage"`). -/
structure PullImageOptions where
  Repository : String
  Registry : String
  OutputStream : Option Nat
deriving DecidableEq, Repr

/-- `ImportImageOptions` struct of image.go (`Repository` is `qs:"repo"`,
`Source` is `qs:"fromSrc"`, both streams are `qs:"-"`). -/
structure ImportImageOptions where
  Repository : String
  Source : String
  InputStream : Option InStream
  OutputStream : Option Nat
deriving DecidableEq, Repr

/-- `BuildImageOptions` struct of image.go (`Name` is `qs:"t"`, `Remote` is
`qs:"remote"`, `SuppressOutput` is `qs:"q"`). -/
structure BuildImageOptions where
  Name : String
  Remote : String
  SuppressOutput : Bool
  OutputStream : Option Nat
deriving DecidableEq, Repr

/-- `TagImageOptions` struct of image.go. -/
structure TagImageOptions where
  Repo : String
  Force : Bool
deriving DecidableEq, Repr

/-- The client environment.  `doReq` and `stream` are the generic transport
methods `Client.do` and `Client.stream` (defined outside image.go); they
return the body/status/error, resp. the error, that the transport would
produce for the given request.  `decodeImages`/`decodeImage` model
`json.Unmarshal` into the two record types, `encodeAuth` models
`json.NewEncoder(..).Encode(auth)` into a buffer, and `openFile` models
`os.Open` followed by `ioutil.ReadAll` (an open failure is the error case;
image.go ignores the error result of `ReadAll` itself, so the success case
just yields the bytes read). -/
structure Client where
  doReq : String → String → Option (List Nat) → List Nat × Nat × Option DockerError
  stream : String → String → Option InStream → Option Nat → Option DockerError
  decodeImages : List Nat → Except String (List APIImages)
  decodeImage : List Nat → Except String Image
  encodeAuth : AuthConfiguration → List Nat
  openFile : String → Except DockerError (List Nat)

/-- Modelled from the spec: query-parameter encodings are "derived from struct
field tags"; the serializer `queryString` is defined outside image.go.  We
represent the serialized parameters as key/value pairs and this function as
the final textual encoding. -/
def encodeQS (ps : List (String × String)) : String :=
  String.intercalate "&" (ps.map (fun p => p.1 ++ "=" ++ p.2))

/-- Modelled from the spec: `queryString` specialized to `PushImageOptions`.
`Name` and `Registry` have no `qs` tag, so their keys are the lowercased
field names; empty strings are omitted; `OutputStream` is `qs:"-"`. -/
def queryStringPush (o : PushImageOptions) : List (String × String) :=
  (if o.Name = "" then [] else [("name", o.Name)]) ++
    (if o.Registry = "" then [] else [("registry", o.Registry)])

/-- Modelled from the spec: `queryString` specialized to `PullImageOptions`. -/
def queryStringPull (o : PullImageOptions) : List (String × String) :=
  (if o.Repository = "" then [] else [("fromImage", o.Repository)]) ++
    (if o.Registry = "" then [] else [("registry", o.Registry)])

/-- Modelled from the spec: `queryString` specialized to `ImportImageOptions`. -/
def queryStringImport (o : ImportImageOptions) : List (String × String) :=
  (if o.Repository = "" then [] else [("repo", o.Repository)]) ++
    (if o.Source = "" then [] else [("fromSrc", o.Source)])

/-- Modelled from the spec: `queryString` specialized to `BuildImageOptions`
(a false boolean is omitted, a true one encodes as `1`). -/
def queryStringBuild (o : BuildImageOptions) : List (String × String) :=
  (if o.Name = "" then [] else [("t", o.Name)]) ++
    (if o.Remote = "" then [] else [("remote", o.Remote)]) ++
      (if o.SuppressOutput then [("q", "1")] else [])

/-- Modelled from the spec: `queryString` specialized to `TagImageOptions`. -/
def queryStringTag (o : TagImageOptions) : List (String × String) :=
  (if o.Repo = "" then [] else [("repo", o.Repo)]) ++
    (if o.Force then [("force", "1")] else [])

/-- The characters before the first colon of a character list, or `none` when
no colon occurs. -/
def schemeChars : List Char → Option (List Char)
  | [] => none
  | c :: cs =>
      if c = ':' then some []
      else
        match schemeChars cs with
        | none => none
        | some s => some (c :: s)

/-- Modelled from the spec: the scheme component that the shared URL parser
(`url.Parse`, defined outside image.go) extracts — the substring before the
first colon, when a colon is present, and empty otherwise. -/
def urlScheme (u : String) : String :=
  match schemeChars u.data with
  | none => ""
  | some s => String.mk s

/-- `isUrl` of image.go: true iff the parsed scheme is `http` or `https`. -/
def isUrl (u : String) : Bool :=
  urlScheme u = "http" || urlScheme u = "https"

/-- `Client.ListImages` of image.go: GET `/images/json?all=0|1`, then JSON
decode of the body.  Returns the Go result paired with the transport calls
dispatched. -/
def Client.ListImages (c : Client) (all : Bool) :
    Except DockerError (List APIImages) × List TransportCall :=
  let path := "/images/json?all=" ++ (if all then "1" else "0")
  let r := c.doReq "GET" path none
  let calls := [TransportCall.doCall "GET" path none]
  match r.2.2 with
  | some e => (.error e, calls)
  | none =>
      match c.decodeImages r.1 with
      | .error m => (.error (.jsonErr m), calls)
      | .ok images => (.ok images, calls)

/-- `Client.RemoveImage` of image.go: DELETE `/images/{name}`; a 404 status
maps to `ErrNoSuchImage`, otherwise the transport error is returned. -/
def Client.RemoveImage (c : Client) (name : String) :
    Option DockerError × List TransportCall :=
  let r := c.doReq "DELETE" ("/images/" ++ name) none
  let calls := [TransportCall.doCall "DELETE" ("/images/" ++ name) none]
  if r.2.1 = 404 then (some .errNoSuchImage, calls) else (r.2.2, calls)

/-- `Client.InspectImage` of image.go: GET `/images/{name}/json`; a 404 status
maps to `ErrNoSuchImage`; otherwise a transport error propagates and a
successful body is JSON-decoded. -/
def Client.InspectImage (c : Client) (name : String) :
    Except DockerError Image × List TransportCall :=
  let r := c.doReq "GET" ("/images/" ++ name ++ "/json") none
  let calls := [TransportCall.doCall "GET" ("/images/" ++ name ++ "/json") none]
  if r.2.1 = 404 then (.error .errNoSuchImage, calls)
  else
    match r.2.2 with
    | some e => (.error e, calls)
    | none =>
        match c.decodeImage r.1 with
        | .error m => (.error (.jsonErr m), calls)
        | .ok image => (.ok image, calls)

/-- `Client.PushImage` of image.go: an empty name yields `ErrNoSuchImage`
locally; otherwise the name is moved into the path, cleared from the options
before query serialization, and the JSON-encoded auth is streamed as the
request body. -/
def Client.PushImage (c : Client) (opts : PushImageOptions)
    (auth : AuthConfiguration) : Option DockerError × List TransportCall :=
  if opts.Name = "" then (some .errNoSuchImage, [])
  else
    let name := opts.Name
    let opts1 : PushImageOptions := { opts with Name := "" }
    let path := "/images/" ++ name ++ "/push?" ++ encodeQS (queryStringPush opts1)
    let buf := InStream.buffer (c.encodeAuth auth)
    (c.stream "POST" path (some buf) opts1.OutputStream,
      [TransportCall.streamCall "POST" path (some buf) opts1.OutputStream])

/-- `Client.createImage` of image.go: POST `/images/create?{qs}` streaming. -/
def Client.createImage (c : Client) (qs : String) (inp : Option InStream)
    (w : Option Nat) : Option DockerError × List TransportCall :=
  let path := "/images/create?" ++ qs
  (c.stream "POST" path inp w, [TransportCall.streamCall "POST" path inp w])

/-- `Client.PullImage` of image.go: an empty repository yields
`ErrNoSuchImage` locally; otherwise delegate to `createImage` with a nil
input stream. -/
def Client.PullImage (c : Client) (opts : PullImageOptions) :
    Option DockerError × List TransportCall :=
  if opts.Repository = "" then (some .errNoSuchImage, [])
  else Client.createImage c (encodeQS (queryStringPull opts)) none opts.OutputStream

/-- `Client.ImportImage` of image.go: an empty repository yields
`ErrNoSuchImage` locally; a source other than `-` drops the caller's input
stream; a source that is neither `-` nor a URL is opened and read, its bytes
become the input stream and the source becomes `-`; then delegate to
`createImage`. -/
def Client.ImportImage (c : Client) (opts : ImportImageOptions) :
    Option DockerError × List TransportCall :=
  if opts.Repository = "" then (some .errNoSuchImage, [])
  else
    let opts1 : ImportImageOptions :=
      if opts.Source ≠ "-" then { opts with InputStream := none } else opts
    if opts1.Source ≠ "-" ∧ isUrl opts1.Source = false then
      match c.openFile opts1.Source with
      | .error e => (some e, [])
      | .ok b =>
          let opts2 : ImportImageOptions :=
            { opts1 with InputStream := some (.buffer b), Source := "-" }
          Client.createImage c (encodeQS (queryStringImport opts2))
            opts2.InputStream opts2.OutputStream
    else
      Client.createImage c (encodeQS (queryStringImport opts1))
        opts1.InputStream opts1.OutputStream

/-- `Client.BuildImage` of image.go: an empty remote yields `ErrMissingRepo`;
an empty name defaults to the remote; a nil output stream yields
`ErrMissingOutputStream`; otherwise POST `/build?{qs}` streaming. -/
def Client.BuildImage (c : Client) (opts : BuildImageOptions) :
    Option DockerError × List TransportCall :=
  if opts.Remote = "" then (some .errMissingRepo, [])
  else
    let opts1 : BuildImageOptions :=
      if opts.Name = "" then { opts with Name := opts.Remote } else opts
    if opts1.OutputStream = none then (some .errMissingOutputStream, [])
    else
      let path := "/build?" ++ encodeQS (queryStringBuild opts1)
      (c.stream "POST" path none opts1.OutputStream,
        [TransportCall.streamCall "POST" path none opts1.OutputStream])

/-- `Client.GetImageTarball` of image.go: GET `/images/{name}/get` streaming
to the caller's writer. -/
def Client.GetImageTarball (c : Client) (imageName : String) (w : Option Nat) :
    Option DockerError × List TransportCall :=
  (c.stream "GET" ("/images/" ++ imageName ++ "/get") none w,
    [TransportCall.streamCall "GET" ("/images/" ++ imageName ++ "/get") none w])

/-- `Client.PostImageTarball` of image.go: POST `/images/load` streaming the
caller's reader. -/
def Client.PostImageTarball (c : Client) (r : Option InStream) :
    Option DockerError × List TransportCall :=
  (c.stream "POST" "/images/load" r none,
    [TransportCall.streamCall "POST" "/images/load" r none])

/-- `Client.SetImageTag` of image.go: POST `/images/{name}/tag?{qs}`. -/
def Client.SetImageTag (c : Client) (imageName tag : String) (force : Bool) :
    Option DockerError × List TransportCall :=
  let opts : TagImageOptions := { Repo := tag, Force := force }
  let path := "/images/" ++ imageName ++ "/tag?" ++ encodeQS (queryStringTag opts)
  (c.stream "POST" path none none,
    [TransportCall.streamCall "POST" path none none])

/-- A benign concrete client used to instantiate universally quantified
statements: every request succeeds with an empty body and status 200, the
decoders and the filesystem answer with fixed values. -/
def trivClient : Client where
  doReq := fun _ _ _ => ([], 200, none)
  stream := fun _ _ _ _ => none
  decodeImages := fun _ => .ok []
  decodeImage := fun _ => .error "opaque"
  encodeAuth := fun _ => [123, 125]
  openFile := fun _ => .ok [1, 2, 3]

/-- A concrete client whose transport reports HTTP status 404 together with a
generic transport error, as `Client.do` does for a missing resource. -/
def notFoundClient : Client :=
  { trivClient with doReq := fun _ _ _ => ([], 404, some (.transportErr "boom")) }

/-! ### Dispatch-shape lemmas

One lemma per operation (and per validation outcome) describing the result and
the transport calls dispatched; the claim theorems below are assembled from
these. -/

theorem listImages_calls (c : Client) (all : Bool) :
    (Client.ListImages c all).2 =
      [TransportCall.doCall "GET"
        ("/images/json?all=" ++ (if all then "1" else "0")) none] := by
  cases all <;>
    (dsimp only [Client.ListImages]
     split
     · rfl
     · split <;> rfl)

theorem pushImage_eq (c : Client) (opts : PushImageOptions)
    (auth : AuthConfiguration) (h : opts.Name ≠ "") :
    Client.PushImage c opts auth =
      (c.stream "POST"
          ("/images/" ++ opts.Name ++ "/push?" ++
            encodeQS (if opts.Registry = "" then [] else [("registry", opts.Registry)]))
          (some (.buffer (c.encodeAuth auth))) opts.OutputStream,
        [TransportCall.streamCall "POST"
          ("/images/" ++ opts.Name ++ "/push?" ++
            encodeQS (if opts.Registry = "" then [] else [("registry", opts.Registry)]))
          (some (.buffer (c.encodeAuth auth))) opts.OutputStream]) := by
  simp [Client.PushImage, h, queryStringPush]

theorem pullImage_eq (c : Client) (opts : PullImageOptions)
    (h : opts.Repository ≠ "") :
    Client.PullImage c opts =
      (c.stream "POST" ("/images/create?" ++ encodeQS (queryStringPull opts))
          none opts.OutputStream,
        [TransportCall.streamCall "POST"
          ("/images/create?" ++ encodeQS (queryStringPull opts))
          none opts.OutputStream]) := by
  simp [Client.PullImage, h, Client.createImage]

theorem importImage_dash (c : Client) (opts : ImportImageOptions)
    (hr : opts.Repository ≠ "") (hs : opts.Source = "-") :
    Client.ImportImage c opts =
      (c.stream "POST" ("/images/create?" ++ encodeQS (queryStringImport opts))
          opts.InputStream opts.OutputStream,
        [TransportCall.streamCall "POST"
          ("/images/create?" ++ encodeQS (queryStringImport opts))
          opts.InputStream opts.OutputStream]) := by
  simp [Client.ImportImage, hr, hs, Client.createImage]

theorem importImage_url (c : Client) (opts : ImportImageOptions)
    (hr : opts.Repository ≠ "") (hs : opts.Source ≠ "-")
    (hu : isUrl opts.Source = true) :
    Client.ImportImage c opts =
      (c.stream "POST"
          ("/images/create?" ++
            encodeQS [("repo", opts.Repository), ("fromSrc", opts.Source)])
          none opts.OutputStream,
        [TransportCall.streamCall "POST"
          ("/images/create?" ++
            encodeQS [("repo", opts.Repository), ("fromSrc", opts.Source)])
          none opts.OutputStream]) := by
  have hne : opts.Source ≠ "" := by
    intro h0
    rw [h0] at hu
    exact absurd hu (by decide)
  simp [Client.ImportImage, hr, hs, hu, Client.createImage, queryStringImport, hne]

theorem importImage_file_err (c : Client) (opts : ImportImageOptions) (e : DockerError)
    (hr : opts.Repository ≠ "") (hs : opts.Source ≠ "-")
    (hu : isUrl opts.Source = false) (hf : c.openFile opts.Source = .error e) :
    Client.ImportImage c opts = (some e, []) := by
  simp [Client.ImportImage, hr, hs, hu, hf]

theorem importImage_file_ok (c : Client) (opts : ImportImageOptions) (b : List Nat)
    (hr : opts.Repository ≠ "") (hs : opts.Source ≠ "-")
    (hu : isUrl opts.Source = false) (hf : c.openFile opts.Source = .ok b) :
    Client.ImportImage c opts =
      (c.stream "POST"
          ("/images/create?" ++ encodeQS [("repo", opts.Repository), ("fromSrc", "-")])
          (some (.buffer b)) opts.OutputStream,
        [TransportCall.streamCall "POST"
          ("/images/create?" ++ encodeQS [("repo", opts.Repository), ("fromSrc", "-")])
          (some (.buffer b)) opts.OutputStream]) := by
  simp [Client.ImportImage, hr, hs, hu, hf, Client.createImage, queryStringImport]

theorem buildImage_eq (c : Client) (opts : BuildImageOptions) (w : Nat)
    (hr : opts.Remote ≠ "") (ho : opts.OutputStream = some w) :
    Client.BuildImage c opts =
      (c.stream "POST"
          ("/build?" ++
            encodeQS (queryStringBuild
              (if opts.Name = "" then { opts with Name := opts.Remote } else opts)))
          none (some w),
        [TransportCall.streamCall "POST"
          ("/build?" ++
            encodeQS (queryStringBuild
              (if opts.Name = "" then { opts with Name := opts.Remote } else opts)))
          none (some w)]) := by
  unfold Client.BuildImage
  by_cases hn : opts.Name = "" <;> simp [hr, hn, ho]

/-! ### Claim C1 -/

/-- C1 counterexample: the claim says every operation maps a 404 transport
status to `ErrNoSuchImage` and returns every other transport failure
unchanged.  `ListImages` discards the status code: against a transport that
reports status 404 together with a generic transport error, it returns that
transport error, not `ErrNoSuchImage`. -/
theorem c1_counterexample :
    (notFoundClient.doReq "GET" "/images/json?all=1" none).2.1 = 404 ∧
    (Client.ListImages notFoundClient true).1 =
      .error (.transportErr "boom") ∧
    (Client.ListImages notFoundClient true).1 ≠
      .error DockerError.errNoSuchImage := by
  decide

/-- C1 (amended): `RemoveImage` and `InspectImage` map a 404 transport status
to `ErrNoSuchImage` and return any other transport failure unchanged; every
other operation returns the transport failure unchanged with no 404 mapping —
`ListImages` ignores the status code, and the stream-based operations receive
no status at all. -/
theorem c1_status_mapping (c : Client) (name tag : String) (force : Bool)
    (po : PushImageOptions) (auth : AuthConfiguration) (plo : PullImageOptions)
    (io : ImportImageOptions) (bo : BuildImageOptions) (w : Nat)
    (r : Option InStream) :
    ((c.doReq "DELETE" ("/images/" ++ name) none).2.1 = 404 →
      (Client.RemoveImage c name).1 = some DockerError.errNoSuchImage) ∧
    ((c.doReq "DELETE" ("/images/" ++ name) none).2.1 ≠ 404 →
      (Client.RemoveImage c name).1 =
        (c.doReq "DELETE" ("/images/" ++ name) none).2.2) ∧
    ((c.doReq "GET" ("/images/" ++ name ++ "/json") none).2.1 = 404 →
      (Client.InspectImage c name).1 = .error DockerError.errNoSuchImage) ∧
    (∀ e, (c.doReq "GET" ("/images/" ++ name ++ "/json") none).2.1 ≠ 404 →
      (c.doReq "GET" ("/images/" ++ name ++ "/json") none).2.2 = some e →
      (Client.InspectImage c name).1 = .error e) ∧
    (∀ all e,
      (c.doReq "GET" ("/images/json?all=" ++ (if all then "1" else "0")) none).2.2 =
        some e →
      (Client.ListImages c all).1 = .error e) ∧
    (po.Name ≠ "" →
      (Client.PushImage c po auth).1 =
        c.stream "POST"
          ("/images/" ++ po.Name ++ "/push?" ++
            encodeQS (if po.Registry = "" then [] else [("registry", po.Registry)]))
          (some (.buffer (c.encodeAuth auth))) po.OutputStream) ∧
    (plo.Repository ≠ "" →
      (Client.PullImage c plo).1 =
        c.stream "POST" ("/images/create?" ++ encodeQS (queryStringPull plo))
          none plo.OutputStream) ∧
    (io.Repository ≠ "" → io.Source = "-" →
      (Client.ImportImage c io).1 =
        c.stream "POST" ("/images/create?" ++ encodeQS (queryStringImport io))
          io.InputStream io.OutputStream) ∧
    (bo.Remote ≠ "" → bo.OutputStream = some w →
      (Client.BuildImage c bo).1 =
        c.stream "POST"
          ("/build?" ++
            encodeQS (queryStringBuild
              (if bo.Name = "" then { bo with Name := bo.Remote } else bo)))
          none (some w)) ∧
    ((Client.GetImageTarball c name (some w)).1 =
      c.stream "GET" ("/images/" ++ name ++ "/get") none (some w)) ∧
    ((Client.PostImageTarball c r).1 = c.stream "POST" "/images/load" r none) ∧
    ((Client.SetImageTag c name tag force).1 =
      c.stream "POST"
        ("/images/" ++ name ++ "/tag?" ++
          encodeQS (queryStringTag { Repo := tag, Force := force }))
        none none) := by
  refine ⟨?_, ?_, ?_, ?_, ?_, ?_, ?_, ?_, ?_, ?_, ?_, ?_⟩
  · intro h
    simp [Client.RemoveImage, h]
  · intro h
    simp [Client.RemoveImage, h]
  · intro h
    simp [Client.InspectImage, h]
  · intro e h he
    simp [Client.InspectImage, h, he]
  · intro all e he
    cases all <;> simp_all [Client.ListImages]
  · intro h
    rw [pushImage_eq c po auth h]
  · intro h
    rw [pullImage_eq c plo h]
  · intro h1 h2
    rw [importImage_dash c io h1 h2]
  · intro h1 h2
    rw [buildImage_eq c bo w h1 h2]
  · rfl
  · rfl
  · rfl

/-- C1 witness: the amended statement instantiated at a transport that always
answers 404 with a generic error. -/
theorem c1_status_mapping_witness :
    (Client.RemoveImage notFoundClient "img").1 =
      some DockerError.errNoSuchImage ∧
    (Client.PushImage notFoundClient ⟨"img", "reg", some 3⟩
      ⟨"u", "p", "e"⟩).1 = none := by
  obtain ⟨h1, -, -, -, -, h6, -⟩ :=
    c1_status_mapping notFoundClient "img" "t" false ⟨"img", "reg", some 3⟩
      ⟨"u", "p", "e"⟩ ⟨"repo", "", some 2⟩ ⟨"repo", "-", none, none⟩
      ⟨"", "remote", false, some 4⟩ 5 none
  exact ⟨h1 (by decide), (h6 (by decide)).trans (by decide)⟩

/-! ### Claim C2 -/

/-- C2 counterexample: the claim says an operation called with an empty
required field returns the missing-input failure and not the not-found
failure.  `PushImage` with an empty name returns `ErrNoSuchImage` — the
not-found failure — before any request is dispatched. -/
theorem c2_counterexample :
    Client.PushImage trivClient ⟨"", "", none⟩ ⟨"", "", ""⟩ =
      (some DockerError.errNoSuchImage, []) ∧
    DockerError.errNoSuchImage ≠ DockerError.errMissingRepo ∧
    DockerError.errNoSuchImage ≠ DockerError.errMissingOutputStream := by
  decide

/-- C2 (amended): three error values are signaled by the binding.
`ErrMissingRepo` and `ErrMissingOutputStream` arise only from `BuildImage`'s
local validation, but `ErrNoSuchImage` does double duty: besides the 404
mapping, it is the error `PushImage`, `PullImage` and `ImportImage` return
for an empty required field, always before any request is dispatched. -/
theorem c2_local_validation (c : Client) (po : PushImageOptions)
    (auth : AuthConfiguration) (plo : PullImageOptions)
    (io : ImportImageOptions) (bo : BuildImageOptions) :
    (po.Name = "" →
      Client.PushImage c po auth = (some DockerError.errNoSuchImage, [])) ∧
    (plo.Repository = "" →
      Client.PullImage c plo = (some DockerError.errNoSuchImage, [])) ∧
    (io.Repository = "" →
      Client.ImportImage c io = (some DockerError.errNoSuchImage, [])) ∧
    (bo.Remote = "" →
      Client.BuildImage c bo = (some DockerError.errMissingRepo, [])) ∧
    (bo.Remote ≠ "" → bo.OutputStream = none →
      Client.BuildImage c bo = (some DockerError.errMissingOutputStream, [])) ∧
    DockerError.errNoSuchImage ≠ DockerError.errMissingRepo ∧
    DockerError.errNoSuchImage ≠ DockerError.errMissingOutputStream ∧
    DockerError.errMissingRepo ≠ DockerError.errMissingOutputStream := by
  refine ⟨?_, ?_, ?_, ?_, ?_, by decide, by decide, by decide⟩
  · intro h
    simp [Client.PushImage, h]
  · intro h
    simp [Client.PullImage, h]
  · intro h
    simp [Client.ImportImage, h]
  · intro h
    simp [Client.BuildImage, h]
  · intro h1 h2
    unfold Client.BuildImage
    by_cases hn : bo.Name = "" <;> simp [h1, hn, h2]

/-- C2 witness: the amended statement applied at concrete empty-field calls. -/
theorem c2_local_validation_witness :
    Client.PushImage trivClient ⟨"", "", none⟩ ⟨"", "", ""⟩ =
      (some DockerError.errNoSuchImage, []) ∧
    Client.BuildImage trivClient ⟨"", "", false, none⟩ =
      (some DockerError.errMissingRepo, []) ∧
    Client.BuildImage trivClient ⟨"", "remote", false, none⟩ =
      (some DockerError.errMissingOutputStream, []) := by
  obtain ⟨h1, -, -, h4, -⟩ :=
    c2_local_validation trivClient ⟨"", "", none⟩ ⟨"", "", ""⟩
      ⟨"", "", none⟩ ⟨"", "", none, none⟩ ⟨"", "", false, none⟩
  obtain ⟨-, -, -, -, h5, -⟩ :=
    c2_local_validation trivClient ⟨"", "", none⟩ ⟨"", "", ""⟩
      ⟨"", "", none⟩ ⟨"", "", none, none⟩ ⟨"", "remote", false, none⟩
  exact ⟨h1 rfl, h4 rfl, h5 (by decide) rfl⟩

/-! ### Claim C3 -/

/-- C3: for an `ImportImage` call with a non-empty repository whose source is
neither `-` nor an http/https URL, the binding reads the whole file named by
the source, dispatches one request with `-` as the `fromSrc` value and the
file's bytes as the input stream; when opening the file fails, that error is
returned and nothing is dispatched. -/
theorem c3_import_local_file (c : Client) (opts : ImportImageOptions)
    (hr : opts.Repository ≠ "") (hs : opts.Source ≠ "-")
    (hu : isUrl opts.Source = false) :
    (∀ e, c.openFile opts.Source = .error e →
      Client.ImportImage c opts = (some e, [])) ∧
    (∀ b, c.openFile opts.Source = .ok b →
      Client.ImportImage c opts =
        (c.stream "POST"
            ("/images/create?" ++
              encodeQS [("repo", opts.Repository), ("fromSrc", "-")])
            (some (.buffer b)) opts.OutputStream,
          [TransportCall.streamCall "POST"
            ("/images/create?" ++
              encodeQS [("repo", opts.Repository), ("fromSrc", "-")])
            (some (.buffer b)) opts.OutputStream])) :=
  ⟨fun e he => importImage_file_err c opts e hr hs hu he,
    fun b hb => importImage_file_ok c opts b hr hs hu hb⟩

/-- C3 witness: a local-path import against the concrete client, whose
filesystem answers with the bytes `[1, 2, 3]`. -/
theorem c3_import_local_file_witness :
    Client.ImportImage trivClient ⟨"r", "/tmp/i.tar", some (.caller 7), some 9⟩ =
      (none,
        [TransportCall.streamCall "POST" "/images/create?repo=r&fromSrc=-"
          (some (.buffer [1, 2, 3])) (some 9)]) := by
  have h :=
    (c3_import_local_file trivClient ⟨"r", "/tmp/i.tar", some (.caller 7), some 9⟩
        (by decide) (by decide) (by decide)).2 [1, 2, 3] (by decide)
  exact h.trans (by decide)

/-! ### Claim C4 -/

/-- C4: `BuildImage` with an empty `Remote` returns `ErrMissingRepo` with no
transport call; with a non-empty `Remote` but a nil `OutputStream` it returns
`ErrMissingOutputStream`, again with no transport call. -/
theorem c4_build_local_validation (c : Client) (opts : BuildImageOptions) :
    (opts.Remote = "" →
      Client.BuildImage c opts = (some DockerError.errMissingRepo, [])) ∧
    (opts.Remote ≠ "" → opts.OutputStream = none →
      Client.BuildImage c opts = (some DockerError.errMissingOutputStream, [])) := by
  constructor
  · intro h
    simp [Client.BuildImage, h]
  · intro h1 h2
    unfold Client.BuildImage
    by_cases hn : opts.Name = "" <;> simp [h1, hn, h2]

/-- C4 witness: both validation failures at concrete option records. -/
theorem c4_build_local_validation_witness :
    Client.BuildImage trivClient ⟨"n", "", false, some 4⟩ =
      (some DockerError.errMissingRepo, []) ∧
    Client.BuildImage trivClient ⟨"n", "github.com/u/r", false, none⟩ =
      (some DockerError.errMissingOutputStream, []) :=
  ⟨(c4_build_local_validation trivClient ⟨"n", "", false, some 4⟩).1 rfl,
    (c4_build_local_validation trivClient ⟨"n", "github.com/u/r", false, none⟩).2
      (by decide) rfl⟩

/-! ### Claim C5 -/

/-- C5 counterexample: the claim allows only the import local-path case to
replace a caller-supplied stream.  In the import URL case the caller's input
stream is also not forwarded: with `InputStream = some (caller 7)` and a URL
source, the dispatched request carries a nil input stream. -/
theorem c5_counterexample :
    (Client.ImportImage trivClient
        ⟨"r", "http://h/i.tar", some (.caller 7), some 9⟩).2 =
      [TransportCall.streamCall "POST"
        "/images/create?repo=r&fromSrc=http://h/i.tar" none (some 9)] ∧
    (Client.ImportImage trivClient
        ⟨"r", "http://h/i.tar", some (.caller 7), some 9⟩).2 ≠
      [TransportCall.streamCall "POST"
        "/images/create?repo=r&fromSrc=http://h/i.tar"
        (some (.caller 7)) (some 9)] := by
  decide

/-- C5 (amended): every streaming operation forwards the caller-supplied
input and output streams to the transport exactly as given — except
`ImportImage` whenever `Source ≠ "-"`: there the caller's input stream is
discarded, replaced by nil when the source is an http/https URL and by the
file's bytes when it is a local path. -/
theorem c5_stream_forwarding (c : Client) (name : String)
    (po : PushImageOptions) (auth : AuthConfiguration) (plo : PullImageOptions)
    (io : ImportImageOptions) (bo : BuildImageOptions) (w : Nat)
    (r : Option InStream) :
    (po.Name ≠ "" →
      (Client.PushImage c po auth).2 =
        [TransportCall.streamCall "POST"
          ("/images/" ++ po.Name ++ "/push?" ++
            encodeQS (if po.Registry = "" then [] else [("registry", po.Registry)]))
          (some (.buffer (c.encodeAuth auth))) po.OutputStream]) ∧
    (plo.Repository ≠ "" →
      (Client.PullImage c plo).2 =
        [TransportCall.streamCall "POST"
          ("/images/create?" ++ encodeQS (queryStringPull plo))
          none plo.OutputStream]) ∧
    (bo.Remote ≠ "" → bo.OutputStream = some w →
      (Client.BuildImage c bo).2 =
        [TransportCall.streamCall "POST"
          ("/build?" ++
            encodeQS (queryStringBuild
              (if bo.Name = "" then { bo with Name := bo.Remote } else bo)))
          none (some w)]) ∧
    ((Client.GetImageTarball c name (some w)).2 =
      [TransportCall.streamCall "GET" ("/images/" ++ name ++ "/get")
        none (some w)]) ∧
    ((Client.PostImageTarball c r).2 =
      [TransportCall.streamCall "POST" "/images/load" r none]) ∧
    (io.Repository ≠ "" → io.Source = "-" →
      (Client.ImportImage c io).2 =
        [TransportCall.streamCall "POST"
          ("/images/create?" ++ encodeQS (queryStringImport io))
          io.InputStream io.OutputStream]) ∧
    (io.Repository ≠ "" → io.Source ≠ "-" → isUrl io.Source = true →
      (Client.ImportImage c io).2 =
        [TransportCall.streamCall "POST"
          ("/images/create?" ++
            encodeQS [("repo", io.Repository), ("fromSrc", io.Source)])
          none io.OutputStream]) ∧
    (∀ b, io.Repository ≠ "" → io.Source ≠ "-" → isUrl io.Source = false →
      c.openFile io.Source = .ok b →
      (Client.ImportImage c io).2 =
        [TransportCall.streamCall "POST"
          ("/images/create?" ++
            encodeQS [("repo", io.Repository), ("fromSrc", "-")])
          (some (.buffer b)) io.OutputStream]) := by
  refine ⟨?_, ?_, ?_, rfl, rfl, ?_, ?_, ?_⟩
  · intro h
    rw [pushImage_eq c po auth h]
  · intro h
    rw [pullImage_eq c plo h]
  · intro h1 h2
    rw [buildImage_eq c bo w h1 h2]
  · intro h1 h2
    rw [importImage_dash c io h1 h2]
  · intro h1 h2 h3
    rw [importImage_url c io h1 h2 h3]
  · intro b h1 h2 h3 h4
    rw [importImage_file_ok c io b h1 h2 h3 h4]

/-- C5 witness: the amended statement applied at concrete streams — an import
from stdin forwards the caller's reader untouched, a pull forwards the
caller's writer untouched. -/
theorem c5_stream_forwarding_witness :
    (Client.ImportImage trivClient ⟨"r", "-", some (.caller 7), some 9⟩).2 =
      [TransportCall.streamCall "POST" "/images/create?repo=r&fromSrc=-"
        (some (.caller 7)) (some 9)] ∧
    (Client.PullImage trivClient ⟨"repo", "", some 5⟩).2 =
      [TransportCall.streamCall "POST" "/images/create?fromImage=repo"
        none (some 5)] := by
  obtain ⟨-, h2, -, -, -, h6, -⟩ :=
    c5_stream_forwarding trivClient "img" ⟨"img", "", some 3⟩ ⟨"", "", ""⟩
      ⟨"repo", "", some 5⟩ ⟨"r", "-", some (.caller 7), some 9⟩
      ⟨"", "rem", false, some 4⟩ 4 none
  exact ⟨(h6 (by decide) rfl).trans (by decide), (h2 (by decide)).trans (by decide)⟩

/-! ### Claim C6 -/

theorem listImages_ok_iff (c : Client) (all : Bool) (imgs : List APIImages) :
    (Client.ListImages c all).1 = .ok imgs ↔
      ((c.doReq "GET" ("/images/json?all=" ++ (if all then "1" else "0")) none).2.2 =
          none ∧
        c.decodeImages
            (c.doReq "GET" ("/images/json?all=" ++ (if all then "1" else "0")) none).1 =
          .ok imgs) := by
  unfold Client.ListImages
  rcases hdo :
      (c.doReq "GET" ("/images/json?all=" ++ (if all then "1" else "0")) none).2.2 with
    _ | e <;>
    rcases hdec :
        c.decodeImages
          (c.doReq "GET" ("/images/json?all=" ++ (if all then "1" else "0")) none).1 with
      m | l <;>
    simp [hdo, hdec]

/-- C6: `ListImages all` dispatches exactly one GET to `/images/json` with
query `all=1` when `all` is true and `all=0` otherwise, and its result is the
decoded image list exactly when the transport reported no error and the JSON
decode succeeded — in every other case an error is returned. -/
theorem c6_list_images (c : Client) (all : Bool) :
    (Client.ListImages c all).2 =
      [TransportCall.doCall "GET"
        ("/images/json?all=" ++ (if all then "1" else "0")) none] ∧
    (∀ imgs, (Client.ListImages c all).1 = .ok imgs ↔
      ((c.doReq "GET" ("/images/json?all=" ++ (if all then "1" else "0")) none).2.2 =
          none ∧
        c.decodeImages
            (c.doReq "GET" ("/images/json?all=" ++ (if all then "1" else "0")) none).1 =
          .ok imgs)) :=
  ⟨listImages_calls c all, fun imgs => listImages_ok_iff c all imgs⟩

/-! ### Claim C7 -/

/-- C7: no operation retries — each exported operation dispatches exactly one
transport call when its local validation passes (and, for import, the local
file open succeeds), and zero transport calls otherwise. -/
theorem c7_single_dispatch (c : Client) (all : Bool) (name tag : String)
    (force : Bool) (po : PushImageOptions) (auth : AuthConfiguration)
    (plo : PullImageOptions) (io : ImportImageOptions) (bo : BuildImageOptions)
    (w : Option Nat) (r : Option InStream) :
    (Client.ListImages c all).2.length = 1 ∧
    (Client.RemoveImage c name).2.length = 1 ∧
    (Client.InspectImage c name).2.length = 1 ∧
    (Client.PushImage c po auth).2.length = (if po.Name = "" then 0 else 1) ∧
    (Client.PullImage c plo).2.length = (if plo.Repository = "" then 0 else 1) ∧
    (Client.ImportImage c io).2.length =
      (if io.Repository = "" then 0
       else if io.Source = "-" then 1
       else if isUrl io.Source then 1
       else match c.openFile io.Source with
         | .error _ => 0
         | .ok _ => 1) ∧
    (Client.BuildImage c bo).2.length =
      (if bo.Remote = "" then 0
       else if bo.OutputStream = none then 0
       else 1) ∧
    (Client.GetImageTarball c name w).2.length = 1 ∧
    (Client.PostImageTarball c r).2.length = 1 ∧
    (Client.SetImageTag c name tag force).2.length = 1 := by
  refine ⟨?_, ?_, ?_, ?_, ?_, ?_, ?_, rfl, rfl, rfl⟩
  · rw [listImages_calls]
    rfl
  · unfold Client.RemoveImage
    dsimp only
    split <;> rfl
  · unfold Client.InspectImage
    dsimp only
    repeat first | rfl | split
  · unfold Client.PushImage
    split <;> rfl
  · unfold Client.PullImage
    split <;> rfl
  · unfold Client.ImportImage
    dsimp only
    by_cases h1 : io.Repository = ""
    · simp [h1]
    · by_cases h2 : io.Source = "-"
      · simp [h1, h2, Client.createImage]
      · cases h3 : isUrl io.Source
        · rcases hf : c.openFile io.Source with e | b <;>
            simp [h1, h2, h3, hf, Client.createImage]
        · simp [h1, h2, h3, Client.createImage]
  · unfold Client.BuildImage
    dsimp only
    by_cases h1 : bo.Remote = ""
    · simp [h1]
    · by_cases hn : bo.Name = "" <;>
        by_cases ho : bo.OutputStream = none <;>
        simp [h1, hn, ho]

/-! ### Claim C8 -/

/-- C8: `PushImage` with a non-empty name places the name only in the request
path `/images/{name}/push` and clears the `Name` field before the query
string is serialized, so the query string encodes only the `Registry`
field. -/
theorem c8_push_name_not_in_query (c : Client) (opts : PushImageOptions)
    (auth : AuthConfiguration) (h : opts.Name ≠ "") :
    Client.PushImage c opts auth =
      (c.stream "POST"
          ("/images/" ++ opts.Name ++ "/push?" ++
            encodeQS (if opts.Registry = "" then []
              else [("registry", opts.Registry)]))
          (some (.buffer (c.encodeAuth auth))) opts.OutputStream,
        [TransportCall.streamCall "POST"
          ("/images/" ++ opts.Name ++ "/push?" ++
            encodeQS (if opts.Registry = "" then []
              else [("registry", opts.Registry)]))
          (some (.buffer (c.encodeAuth auth))) opts.OutputStream]) ∧
    queryStringPush { opts with Name := "" } =
      (if opts.Registry = "" then [] else [("registry", opts.Registry)]) :=
  ⟨pushImage_eq c opts auth h, by simp [queryStringPush]⟩

/-- C8 witness: a concrete push whose dispatched path carries the name and
whose query string carries only the registry. -/
theorem c8_push_name_not_in_query_witness :
    Client.PushImage trivClient ⟨"img", "reg", some 3⟩ ⟨"u", "p", "e"⟩ =
      (none,
        [TransportCall.streamCall "POST" "/images/img/push?registry=reg"
          (some (.buffer [123, 125])) (some 3)]) := by
  have h :=
    (c8_push_name_not_in_query trivClient ⟨"img", "reg", some 3⟩ ⟨"u", "p", "e"⟩
        (by decide)).1
  exact h.trans (by decide)

/-! ### Claim C9 -/

/-- C9: `BuildImage` with a non-empty remote and an empty name defaults the
name to the remote before dispatch, so the serialized query string carries
`t` equal to the remote repository identifier. -/
theorem c9_build_default_name (c : Client) (opts : BuildImageOptions) (w : Nat)
    (hr : opts.Remote ≠ "") (hn : opts.Name = "")
    (ho : opts.OutputStream = some w) :
    Client.BuildImage c opts =
      (c.stream "POST"
          ("/build?" ++
            encodeQS (("t", opts.Remote) :: ("remote", opts.Remote) ::
              (if opts.SuppressOutput then [("q", "1")] else [])))
          none (some w),
        [TransportCall.streamCall "POST"
          ("/build?" ++
            encodeQS (("t", opts.Remote) :: ("remote", opts.Remote) ::
              (if opts.SuppressOutput then [("q", "1")] else [])))
          none (some w)]) := by
  rw [buildImage_eq c opts w hr ho]
  simp [hn, queryStringBuild, hr]

/-- C9 witness: a concrete build with an empty name whose query string tags
the image with the remote identifier. -/
theorem c9_build_default_name_witness :
    Client.BuildImage trivClient ⟨"", "github.com/u/r", false, some 4⟩ =
      (none,
        [TransportCall.streamCall "POST"
          "/build?t=github.com/u/r&remote=github.com/u/r" none (some 4)]) := by
  have h :=
    c9_build_default_name trivClient ⟨"", "github.com/u/r", false, some 4⟩ 4
      (by decide) rfl rfl
  exact h.trans (by decide)

/-! ### Claim C10 -/

/-- C10: `ImportImage` with a source other than `-` discards any
caller-supplied input stream — the request goes out with a nil input stream
when the source is an http/https URL, and with the opened file's bytes when
the source is a local path. -/
theorem c10_import_discards_input (c : Client) (opts : ImportImageOptions)
    (hr : opts.Repository ≠ "") (hs : opts.Source ≠ "-") :
    (isUrl opts.Source = true →
      Client.ImportImage c opts =
        (c.stream "POST"
            ("/images/create?" ++
              encodeQS [("repo", opts.Repository), ("fromSrc", opts.Source)])
            none opts.OutputStream,
          [TransportCall.streamCall "POST"
            ("/images/create?" ++
              encodeQS [("repo", opts.Repository), ("fromSrc", opts.Source)])
            none opts.OutputStream])) ∧
    (∀ b, isUrl opts.Source = false → c.openFile opts.Source = .ok b →
      Client.ImportImage c opts =
        (c.stream "POST"
            ("/images/create?" ++
              encodeQS [("repo", opts.Repository), ("fromSrc", "-")])
            (some (.buffer b)) opts.OutputStream,
          [TransportCall.streamCall "POST"
            ("/images/create?" ++
              encodeQS [("repo", opts.Repository), ("fromSrc", "-")])
            (some (.buffer b)) opts.OutputStream])) :=
  ⟨fun hu => importImage_url c opts hr hs hu,
    fun b hu hf => importImage_file_ok c opts b hr hs hu hf⟩

/-- C10 witness: a URL import with a caller-supplied reader dispatches with a
nil input stream. -/
theorem c10_import_discards_input_witness :
    Client.ImportImage trivClient ⟨"r", "http://h/i.tar", some (.caller 7), some 9⟩ =
      (none,
        [TransportCall.streamCall "POST"
          "/images/create?repo=r&fromSrc=http://h/i.tar" none (some 9)]) := by
  have h :=
    (c10_import_discards_input trivClient
        ⟨"r", "http://h/i.tar", some (.caller 7), some 9⟩
        (by decide) (by decide)).1 (by decide)
  exact h.trans (by decide)

end Docker
